import Mathlib

/-!
Verification of the kcm dashboard repository's recurring logic: the
threshold classifier, the rolling sensor window, and the settings-update
callback. Python floats are embedded as rationals; the pandas DataFrame
column `df["SO2"]` is embedded as a `List ℚ` in insertion order; the
`sensor_limits["SO2"]` dict is the structure `ThresholdSet`.
-/

namespace KCM

/-- The four calibration limits stored in `sensor_limits["SO2"]`
(test2.py line 25, test3.py line 24). -/
structure ThresholdSet where
  lsl : ℚ
  lcl : ℚ
  ucl : ℚ
  usl : ℚ
deriving DecidableEq, Repr

/-- The three risk labels produced by the classification chain. -/
inductive RiskLevel where
  | Safe
  | Warning
  | Danger
deriving DecidableEq, Repr

/-- Numeric severity of a risk label, giving Safe < Warning < Danger. -/
def RiskLevel.severity : RiskLevel → ℕ
  | .Safe => 0
  | .Warning => 1
  | .Danger => 2

instance : LE RiskLevel := ⟨fun a b => a.severity ≤ b.severity⟩

instance : LT RiskLevel := ⟨fun a b => a.severity < b.severity⟩

instance (a b : RiskLevel) : Decidable (a ≤ b) :=
  inferInstanceAs (Decidable (a.severity ≤ b.severity))

/-- The comparison chain of `run_ai_model` (test3.py lines 141-146,
test2.py lines 124-129): `latest_value > usl` gives DANGER, else
`latest_value > ucl` gives WARNING, else SAFE. The `lsl`/`lcl` fields
are never read by this chain. -/
def classifyValue (limits : ThresholdSet) (v : ℚ) : RiskLevel :=
  if v > limits.usl then RiskLevel.Danger
  else if v > limits.ucl then RiskLevel.Warning
  else RiskLevel.Safe

/-- The (status text, indicator color, indicator value) triple returned
by `run_ai_model` for each risk label. -/
def riskOutput : RiskLevel → String × String × Bool
  | .Danger => ("DANGER", "red", true)
  | .Warning => ("WARNING", "orange", true)
  | .Safe => ("SAFE", "green", true)

/-- `run_ai_model` of test3.py lines 138-147: when `df` is nonempty,
classify `df["SO2"].iloc[-1]` against the limits; on an empty frame
return the sentinel triple `("", "green", False)`. -/
def run_ai_model (limits : ThresholdSet) (df : List ℚ) : String × String × Bool :=
  match df.getLast? with
  | some latest_value => riskOutput (classifyValue limits latest_value)
  | none => ("", "green", false)

/-- `update_current_so2` of test3.py lines 176-180, reduced to the data
it reads: the last reading when `df` is nonempty, `none` (displayed as
"N/A") on an empty frame. -/
def update_current_so2 (df : List ℚ) : Option ℚ :=
  df.getLast?

/-- `update_dashboard` of so_2_monitoring_dashboard.py, reduced to the
latest-reading access and the risk label: line 84 runs
`df.iloc[-1]['SO2_ppm']` with no emptiness guard, so an empty frame
raises `IndexError` (modelled as `Except.error`); lines 102-107 then map
the reading to a label (`< 5` Safe, `< 10` Warning, else Danger). -/
def update_dashboard (df : List ℚ) : Except String String :=
  match df.getLast? with
  | none => Except.error "IndexError"
  | some latest_reading =>
      Except.ok (if latest_reading < 5 then "Safe"
                 else if latest_reading < 10 then "Warning"
                 else "Danger")

/-- Python truthiness of an `n_clicks` value: `None` and `0` are falsy,
any other count is truthy. -/
def clicksTruthy : Option ℕ → Bool
  | none => false
  | some k => k != 0

/-- `update_settings` of test2.py lines 109-112 and test3.py lines
110-113: when `n` is truthy, replace the stored `sensor_limits["SO2"]`
dict with the four form values; in every case echo the four form values
back. Returns (new stored set, echoed outputs). -/
def update_settings (n : Option ℕ) (state : ThresholdSet)
    (lsl lcl ucl usl : ℚ) : ThresholdSet × (ℚ × ℚ × ℚ × ℚ) :=
  (if clicksTruthy n then ⟨lsl, lcl, ucl, usl⟩ else state,
   (lsl, lcl, ucl, usl))

/-- The ordering invariant `lsl ≤ lcl ≤ ucl ≤ usl` of §3 of the spec. -/
def ThresholdSet.ordered (t : ThresholdSet) : Prop :=
  t.lsl ≤ t.lcl ∧ t.lcl ≤ t.ucl ∧ t.ucl ≤ t.usl

instance (t : ThresholdSet) : Decidable t.ordered :=
  inferInstanceAs (Decidable (_ ∧ _ ∧ _))

/-- The last `n` elements of a list, in order: the embedding of the
pandas slice `.iloc[-n:]`. -/
def lastN (n : ℕ) (xs : List ℚ) : List ℚ :=
  xs.drop (xs.length - n)

/-- One step of `update_live_chart` (test3.py lines 154-160): append the
new reading and keep the last `cap` rows
(`pd.concat([df, new_row]).iloc[-cap:]`, with `cap = 100` in the source). -/
def windowAppend (cap : ℕ) (w : List ℚ) (x : ℚ) : List ℚ :=
  lastN cap (w ++ [x])

/-- Iterating `windowAppend` over a sequence of readings. -/
def appendAll (cap : ℕ) (w : List ℚ) (rs : List ℚ) : List ℚ :=
  rs.foldl (windowAppend cap) w

/-- The exceedance count of `export_pdf` (test2.py line 156):
`len(df[df["SO2"] > sensor_limits["SO2"]["usl"]])`. -/
def exceedances (limits : ThresholdSet) (df : List ℚ) : ℕ :=
  (df.filter (fun v => v > limits.usl)).length

/-- `mock_ai_classification` of dashapp.py lines 32-38, overwrite style:
start at "Safe", overwrite with "Warning" when `SO2 > 5 or H2S > 8`,
then overwrite with "Danger" when `SO2 > 10 or H2S > 15`. -/
def mock_ai_classification (so2 h2s : ℚ) : String :=
  let risk := "Safe"
  let risk := if so2 > 5 ∨ h2s > 8 then "Warning" else risk
  let risk := if so2 > 10 ∨ h2s > 15 then "Danger" else risk
  risk

/-- Modelled from the spec (claim C9's most-severe-first reading of the
same rule): Danger iff `SO2 > 10 or H2S > 15`, else Warning iff
`SO2 > 5 or H2S > 8`, else Safe, first match winning. -/
def firstMatchClassification (so2 h2s : ℚ) : String :=
  if so2 > 10 ∨ h2s > 15 then "Danger"
  else if so2 > 5 ∨ h2s > 8 then "Warning"
  else "Safe"

/-! ### Window lemmas -/

theorem lastN_length_le (n : ℕ) (xs : List ℚ) : (lastN n xs).length ≤ n := by
  simp only [lastN, List.length_drop]
  omega

theorem lastN_of_length_le (n : ℕ) (xs : List ℚ) (h : xs.length ≤ n) :
    lastN n xs = xs := by
  simp [lastN, Nat.sub_eq_zero_of_le h]

theorem lastN_append_lastN (n : ℕ) (xs ys : List ℚ) :
    lastN n (lastN n xs ++ ys) = lastN n (xs ++ ys) := by
  rcases le_or_lt xs.length n with h | h
  · rw [lastN_of_length_le n xs h]
  · simp only [lastN, List.drop_append_eq_append_drop, List.drop_drop,
      List.length_append, List.length_drop]
    have e1 : xs.length - n + ((xs.length - (xs.length - n) + ys.length) - n)
        = xs.length + ys.length - n := by omega
    have e2 : (xs.length - (xs.length - n) + ys.length) - n
          - (xs.length - (xs.length - n))
        = xs.length + ys.length - n - xs.length := by omega
    rw [e1, e2]

theorem lastN_append_of_le_length (n : ℕ) (w rs : List ℚ) (h : n ≤ rs.length) :
    lastN n (w ++ rs) = lastN n rs := by
  simp only [lastN, List.drop_append_eq_append_drop, List.length_append]
  rw [List.drop_eq_nil_of_le (by omega)]
  simp only [List.nil_append]
  congr 1
  omega

theorem appendAll_eq_lastN (cap : ℕ) (w rs : List ℚ) (h : w.length ≤ cap) :
    appendAll cap w rs = lastN cap (w ++ rs) := by
  induction rs generalizing w with
  | nil => simpa [appendAll] using (lastN_of_length_le cap w h).symm
  | cons r rs ih =>
      have step : appendAll cap w (r :: rs) = appendAll cap (windowAppend cap w r) rs := rfl
      rw [step, ih (windowAppend cap w r) (lastN_length_le cap (w ++ [r]))]
      show lastN cap (lastN cap (w ++ [r]) ++ rs) = _
      rw [lastN_append_lastN]
      simp

/-! ### Claims -/

/-- C1: `classifyValue` evaluates the threshold checks most-severe-first
with first match winning — `value > usl` gives Danger, otherwise
`value > ucl` gives Warning, otherwise Safe — and the `lsl`/`lcl` limits
never alter the returned label. -/
theorem claim_C1 (t : ThresholdSet) (v : ℚ) :
    (t.usl < v → classifyValue t v = RiskLevel.Danger) ∧
    (v ≤ t.usl → t.ucl < v → classifyValue t v = RiskLevel.Warning) ∧
    (v ≤ t.usl → v ≤ t.ucl → classifyValue t v = RiskLevel.Safe) ∧
    (∀ a b : ℚ, classifyValue ⟨a, b, t.ucl, t.usl⟩ v = classifyValue t v) := by
  refine ⟨fun h => ?_, fun h1 h2 => ?_, fun h1 h2 => ?_, fun a b => rfl⟩
  · simp [classifyValue, h]
  · simp [classifyValue, not_lt.mpr h1, h2]
  · simp [classifyValue, not_lt.mpr h1, not_lt.mpr h2]

theorem claim_C1_witness :
    classifyValue ⟨300, 400, 700, 800⟩ 850 = RiskLevel.Danger ∧
    classifyValue ⟨300, 400, 700, 800⟩ 750 = RiskLevel.Warning ∧
    classifyValue ⟨300, 400, 700, 800⟩ 500 = RiskLevel.Safe :=
  ⟨(claim_C1 ⟨300, 400, 700, 800⟩ 850).1 (by decide),
   (claim_C1 ⟨300, 400, 700, 800⟩ 750).2.1 (by decide) (by decide),
   (claim_C1 ⟨300, 400, 700, 800⟩ 500).2.2.1 (by decide) (by decide)⟩

/-- C2: for every sequence of appends on the capacity-100 window of
`update_live_chart`, the window length stays at most 100, and once at
least 100 readings have been appended the window is exactly the last 100
appended readings in order (strict FIFO eviction). -/
theorem claim_C2 (w rs : List ℚ) (h : w.length ≤ 100) :
    (appendAll 100 w rs).length ≤ 100 ∧
    (100 ≤ rs.length → appendAll 100 w rs = lastN 100 rs) := by
  rw [appendAll_eq_lastN 100 w rs h]
  exact ⟨lastN_length_le 100 (w ++ rs),
    fun hn => lastN_append_of_le_length 100 w rs hn⟩

theorem claim_C2_witness :
    (appendAll 100 [] (List.replicate 100 (0 : ℚ))).length ≤ 100 ∧
    appendAll 100 [] (List.replicate 100 (0 : ℚ))
      = lastN 100 (List.replicate 100 (0 : ℚ)) :=
  ⟨(claim_C2 [] (List.replicate 100 (0 : ℚ)) (by simp)).1,
   (claim_C2 [] (List.replicate 100 (0 : ℚ)) (by simp)).2 (by simp)⟩

/-- C3 counterexample: starting from the ordered default limits, one
truthy click with the out-of-order form values (800, 700, 400, 300)
makes `update_settings` silently store a set violating
`lsl ≤ lcl ≤ ucl ≤ usl`, refuting the claim that such a set is always
rejected or clamped. -/
theorem claim_C3_counterexample :
    (update_settings (some 1) ⟨300, 400, 700, 800⟩ 800 700 400 300).1
      = ⟨800, 700, 400, 300⟩ ∧
    ¬ (update_settings (some 1) ⟨300, 400, 700, 800⟩ 800 700 400 300).1.ordered := by
  decide

/-- C3 amended: `update_settings` performs no validation at all — on a
truthy click it stores the four supplied values verbatim as the new
ThresholdSet, whether or not they satisfy the ordering invariant. -/
theorem claim_C3_amended (n : Option ℕ) (state : ThresholdSet)
    (lsl lcl ucl usl : ℚ) (h : clicksTruthy n = true) :
    (update_settings n state lsl lcl ucl usl).1 = ⟨lsl, lcl, ucl, usl⟩ := by
  simp [update_settings, h]

theorem claim_C3_amended_witness :
    (update_settings (some 2) ⟨300, 400, 700, 800⟩ 1 2 3 4).1 = ⟨1, 2, 3, 4⟩ :=
  claim_C3_amended (some 2) ⟨300, 400, 700, 800⟩ 1 2 3 4 (by decide)

/-- C4: on the empty window, test3's `run_ai_model` returns the sentinel
triple and `update_current_so2` returns the explicit empty result, but
so_2_monitoring_dashboard's `update_dashboard` hits the unguarded
`df.iloc[-1]` and raises (`Except.error`), contradicting the claim that
neither operation faults on an empty window. -/
theorem claim_C4 :
    update_dashboard [] = Except.error "IndexError" ∧
    run_ai_model ⟨300, 400, 700, 800⟩ [] = ("", "green", false) ∧
    update_current_so2 [] = none :=
  ⟨rfl, rfl, rfl⟩

/-- C5: threshold comparisons are strict — whenever `ucl < usl`, a
latest reading equal to `usl` classifies as Warning, and any reading
strictly above `usl` classifies as Danger. -/
theorem claim_C5 (t : ThresholdSet) (v : ℚ) (h : t.ucl < t.usl) :
    (v = t.usl → classifyValue t v = RiskLevel.Warning) ∧
    (t.usl < v → classifyValue t v = RiskLevel.Danger) := by
  constructor
  · intro hv
    subst hv
    simp [classifyValue, lt_irrefl, h]
  · intro hv
    simp [classifyValue, hv]

theorem claim_C5_witness :
    classifyValue ⟨300, 400, 700, 800⟩ 800 = RiskLevel.Warning ∧
    classifyValue ⟨300, 400, 700, 800⟩ 850 = RiskLevel.Danger :=
  ⟨(claim_C5 ⟨300, 400, 700, 800⟩ 800 (by decide)).1 (by decide),
   (claim_C5 ⟨300, 400, 700, 800⟩ 850 (by decide)).2 (by decide)⟩

/-- C6: with thresholds {lsl 300, lcl 400, ucl 700, usl 800} and
capacity 2, appending [650, 750, 850] leaves the window [750, 850];
`run_ai_model` then reports DANGER (850 > 800); and the exceedance count
over the window equals 1. -/
theorem claim_C6 :
    appendAll 2 [] [650, 750, 850] = [750, 850] ∧
    run_ai_model ⟨300, 400, 700, 800⟩ (appendAll 2 [] [650, 750, 850])
      = ("DANGER", "red", true) ∧
    exceedances ⟨300, 400, 700, 800⟩ (appendAll 2 [] [650, 750, 850]) = 1 := by
  decide

/-- C7: on a truthy click, `update_settings` with a set T is idempotent
(the stored state after a second identical call equals the state after
the first), the stored state equals exactly T (the whole set is
replaced), and the call echoes T back. -/
theorem claim_C7 (n : Option ℕ) (state T : ThresholdSet)
    (h : clicksTruthy n = true) :
    (update_settings n (update_settings n state T.lsl T.lcl T.ucl T.usl).1
        T.lsl T.lcl T.ucl T.usl).1
      = (update_settings n state T.lsl T.lcl T.ucl T.usl).1 ∧
    (update_settings n state T.lsl T.lcl T.ucl T.usl).1 = T ∧
    (update_settings n state T.lsl T.lcl T.ucl T.usl).2
      = (T.lsl, T.lcl, T.ucl, T.usl) := by
  simp [update_settings, h]

theorem claim_C7_witness :
    (update_settings (some 1)
        (update_settings (some 1) ⟨0, 0, 0, 0⟩ 300 400 700 800).1
        300 400 700 800).1
      = (update_settings (some 1) ⟨0, 0, 0, 0⟩ 300 400 700 800).1 ∧
    (update_settings (some 1) ⟨0, 0, 0, 0⟩ 300 400 700 800).1
      = ⟨300, 400, 700, 800⟩ ∧
    (update_settings (some 1) ⟨0, 0, 0, 0⟩ 300 400 700 800).2
      = (300, 400, 700, 800) :=
  claim_C7 (some 1) ⟨0, 0, 0, 0⟩ ⟨300, 400, 700, 800⟩ (by decide)

/-- C8: for a fixed ThresholdSet, `classifyValue` is monotone in the
reading value under the order Safe < Warning < Danger. -/
theorem claim_C8 (t : ThresholdSet) (v1 v2 : ℚ) (h : v1 < v2) :
    classifyValue t v1 ≤ classifyValue t v2 := by
  show (classifyValue t v1).severity ≤ (classifyValue t v2).severity
  unfold classifyValue
  split_ifs <;> simp [RiskLevel.severity] <;> linarith

theorem claim_C8_witness :
    classifyValue ⟨300, 400, 700, 800⟩ 500 ≤ classifyValue ⟨300, 400, 700, 800⟩ 850 :=
  claim_C8 ⟨300, 400, 700, 800⟩ 500 850 (by decide)

/-- C9: dashapp's overwrite-style `mock_ai_classification` agrees with
the most-severe-first first-match rule on every input row. -/
theorem claim_C9 (so2 h2s : ℚ) :
    mock_ai_classification so2 h2s = firstMatchClassification so2 h2s := by
  unfold mock_ai_classification firstMatchClassification
  split_ifs <;> rfl

/-- C10: with `n_clicks` equal to None or 0, `update_settings` leaves
the stored ThresholdSet unchanged while still echoing the four form
values back unmodified. -/
theorem claim_C10 (n : Option ℕ) (state : ThresholdSet)
    (lsl lcl ucl usl : ℚ) (h : n = none ∨ n = some 0) :
    (update_settings n state lsl lcl ucl usl).1 = state ∧
    (update_settings n state lsl lcl ucl usl).2 = (lsl, lcl, ucl, usl) := by
  rcases h with h | h <;> subst h <;> simp [update_settings, clicksTruthy]

theorem claim_C10_witness :
    (update_settings none ⟨300, 400, 700, 800⟩ 1 2 3 4).1 = ⟨300, 400, 700, 800⟩ ∧
    (update_settings none ⟨300, 400, 700, 800⟩ 1 2 3 4).2 = (1, 2, 3, 4) :=
  claim_C10 none ⟨300, 400, 700, 800⟩ 1 2 3 4 (Or.inl rfl)

end KCM
